import Mathlib

/-!
Verification development for the macross-contrib/session library: a pluggable
server-side session manager.  The Go source is embedded shallowly: pure Go
functions become Lean functions, the HTTP context and the random source become
explicit parameters, `panic` and Go errors become `Except`/`Option` results,
and Go maps become association lists with Go lookup semantics.
-/

set_option autoImplicit false

namespace SessionLib

/-- Go map semantics over an association list: lookup of a key. -/
def mapGet {K V : Type} [DecidableEq K] (m : List (K × V)) (k : K) : Option V :=
  match m with
  | [] => none
  | (k1, v) :: rest => if k1 = k then some v else mapGet rest k

/-- Go `delete(m, k)`: remove every binding of `k`. -/
def mapDel {K V : Type} [DecidableEq K] (m : List (K × V)) (k : K) : List (K × V) :=
  match m with
  | [] => []
  | (k1, v) :: rest => if k1 = k then mapDel rest k else (k1, v) :: mapDel rest k

/-- Go `m[k] = v`: bind `k` to `v`, replacing any previous binding. -/
def mapSet {K V : Type} [DecidableEq K] (m : List (K × V)) (k : K) (v : V) : List (K × V) :=
  (k, v) :: mapDel m k

theorem mapGet_mapSet_same {K V : Type} [DecidableEq K] (m : List (K × V)) (k : K) (v : V) :
    mapGet (mapSet m k v) k = some v := by
  simp [mapSet, mapGet]

theorem mapGet_mapDel_same {K V : Type} [DecidableEq K] (m : List (K × V)) (k : K) :
    mapGet (mapDel m k) k = none := by
  induction m with
  | nil => rfl
  | cons p rest ih =>
    obtain ⟨k1, v⟩ := p
    by_cases h : k1 = k <;> simp [mapDel, mapGet, h, ih]

theorem mapGet_mapDel_other {K V : Type} [DecidableEq K] (m : List (K × V)) (k k1 : K)
    (h : k1 ≠ k) : mapGet (mapDel m k1) k = mapGet m k := by
  induction m with
  | nil => rfl
  | cons p rest ih =>
    obtain ⟨k2, v⟩ := p
    by_cases h2 : k2 = k1
    · have hk : k2 ≠ k := by rw [h2]; exact h
      simp only [mapDel, if_pos h2, mapGet, if_neg hk, ih]
    · simp only [mapDel, if_neg h2, mapGet]
      by_cases h3 : k2 = k
      · rw [if_pos h3, if_pos h3]
      · rw [if_neg h3, if_neg h3, ih]

theorem mapGet_mapSet_other {K V : Type} [DecidableEq K] (m : List (K × V)) (k k1 : K) (v : V)
    (h : k1 ≠ k) : mapGet (mapSet m k1 v) k = mapGet m k := by
  simp only [mapSet, mapGet, if_neg h]
  exact mapGet_mapDel_other m k k1 h

/-- Go `encoding/hex`: the lowercase hex digit for a value below 16
(`hextable = "0123456789abcdef"`). -/
def hexDigitLower (n : Nat) : Char :=
  if n < 10 then Char.ofNat (48 + n) else Char.ofNat (87 + n)

/-- Go `hex.EncodeToString`: each byte becomes its high then low lowercase hex digit. -/
def hexEncode (bs : List (Fin 256)) : String :=
  ⟨bs.foldr (fun b acc => hexDigitLower (b.val / 16) :: hexDigitLower (b.val % 16) :: acc) []⟩

/-- A character matched by the class `[0-9a-f]`. -/
def isLowerHexChar (c : Char) : Bool :=
  (('0' ≤ c) && (c ≤ '9')) || (('a' ≤ c) && (c ≤ 'f'))

theorem hexDigitLower_isLowerHex (n : Nat) (h : n < 16) :
    isLowerHexChar (hexDigitLower n) = true := by
  interval_cases n <;> decide

theorem hexEncode_length (bs : List (Fin 256)) :
    (hexEncode bs).length = 2 * bs.length := by
  induction bs with
  | nil => rfl
  | cons b rest ih =>
    simp only [hexEncode, String.length] at ih ⊢
    simp [List.foldr_cons, ih]
    ring

theorem hexEncode_chars (bs : List (Fin 256)) :
    ∀ c ∈ (hexEncode bs).data, isLowerHexChar c = true := by
  induction bs with
  | nil => intro c hc; cases hc
  | cons b rest ih =>
    intro c hc
    rw [show (hexEncode (b :: rest)).data
        = hexDigitLower (b.val / 16) :: hexDigitLower (b.val % 16) :: (hexEncode rest).data
      from rfl] at hc
    rcases List.mem_cons.mp hc with h | h
    · exact h ▸ hexDigitLower_isLowerHex _ (Nat.div_lt_of_lt_mul b.isLt)
    rcases List.mem_cons.mp h with h2 | h2
    · exact h2 ▸ hexDigitLower_isLowerHex _ (Nat.mod_lt _ (by norm_num))
    · exact ih c h2

/-- Go `net/url` query escaping: a byte needs no escaping exactly when it is
alphanumeric or one of `-_.~` (mode `encodeQueryComponent`). -/
def shouldEscape (c : Char) : Bool :=
  !(c.isAlphanum || c = '-' || c = '_' || c = '.' || c = '~')

/-- Uppercase hex digit, used by percent-encoding. -/
def hexDigitUpper (n : Nat) : Char :=
  if n < 10 then Char.ofNat (48 + n) else Char.ofNat (55 + n)

/-- Escaping of a single character: space becomes `+`, unreserved characters
pass through, anything else is percent-encoded. -/
def queryEscapeChar (c : Char) : List Char :=
  if c = ' ' then ['+']
  else if shouldEscape c then
    ['%', hexDigitUpper (c.toNat / 16 % 16), hexDigitUpper (c.toNat % 16)]
  else [c]

/-- Go `url.QueryEscape`, modelled character-wise (the Go function works on the
UTF-8 bytes; on the ASCII data this library produces the two agree). -/
def queryEscape (s : String) : String :=
  ⟨(s.data.map queryEscapeChar).flatten⟩

/-- Value of a hex digit character, `none` when not a hex digit
(`net/url`'s `unhex`). -/
def unhexChar (c : Char) : Option Nat :=
  if 48 ≤ c.toNat ∧ c.toNat ≤ 57 then some (c.toNat - 48)
  else if 97 ≤ c.toNat ∧ c.toNat ≤ 102 then some (c.toNat - 87)
  else if 65 ≤ c.toNat ∧ c.toNat ≤ 70 then some (c.toNat - 55)
  else none

/-- Go `url.QueryUnescape` on a character list: `%XX` decodes, `+` becomes a
space, a malformed escape is an error (`none`). -/
def queryUnescapeList : List Char → Option (List Char)
  | [] => some []
  | '%' :: h1 :: h2 :: rest => do
    let d1 ← unhexChar h1
    let d2 ← unhexChar h2
    let r ← queryUnescapeList rest
    pure (Char.ofNat (16 * d1 + d2) :: r)
  | '%' :: _ => none
  | '+' :: rest => do
    let r ← queryUnescapeList rest
    pure (' ' :: r)
  | c :: rest => do
    let r ← queryUnescapeList rest
    pure (c :: r)

/-- Go `url.QueryUnescape`, modelled character-wise. -/
def queryUnescape (s : String) : Except String String :=
  match queryUnescapeList s.data with
  | some cs => .ok ⟨cs⟩
  | none => .error "invalid URL escape"

theorem escapeList_id (l : List Char) (h : ∀ c ∈ l, shouldEscape c = false) :
    (l.map queryEscapeChar).flatten = l := by
  induction l with
  | nil => rfl
  | cons c rest ih =>
    have hc := h c (List.mem_cons_self c rest)
    have hcs : c ≠ ' ' := by
      intro he
      rw [he] at hc
      exact absurd hc (by decide)
    have ih2 := ih fun c2 h2 => h c2 (List.mem_cons_of_mem _ h2)
    simp [queryEscapeChar, hcs, hc, ih2]

theorem queryEscape_id_of_unescaped (s : String)
    (h : ∀ c ∈ s.data, shouldEscape c = false) : queryEscape s = s := by
  have h2 := escapeList_id s.data h
  unfold queryEscape
  rw [h2]

theorem lowerHex_not_escaped (c : Char) (h : isLowerHexChar c = true) :
    shouldEscape c = false := by
  simp only [isLowerHexChar, Bool.or_eq_true, Bool.and_eq_true, decide_eq_true_eq] at h
  have halnum : c.isAlphanum = true := by
    rcases h with ⟨h1, h2⟩ | ⟨h1, h2⟩
    · simp only [Char.isAlphanum, Char.isDigit, Char.isAlpha, Bool.or_eq_true, decide_eq_true_eq,
        Bool.and_eq_true]
      exact Or.inr ⟨h1, h2⟩
    · have h3 : c ≤ 'z' := le_trans h2 (by decide)
      simp only [Char.isAlphanum, Char.isAlpha, Char.isLower, Bool.or_eq_true, decide_eq_true_eq,
        Bool.and_eq_true]
      exact Or.inl (Or.inr ⟨h1, h3⟩)
  simp [shouldEscape, halnum]

/-- Go `macross.Cookie`: the outbound (or inbound) cookie record.  Time is
modelled as an absolute instant in nanoseconds (`Int`), matching Go's
`time.Time`/`time.Duration` arithmetic; `expire = none` models the zero
`time.Time` (a session-scoped cookie, no expiry set). -/
structure GoCookie where
  name : String := ""
  value : String := ""
  path : String := ""
  httpOnly : Bool := false
  secure : Bool := false
  domain : String := ""
  expire : Option Int := none
  deriving Repr, DecidableEq

/-- One nanosecond per unit: `time.Second` is 10^9 `time.Duration` units. -/
def timeSecond : Int := 1000000000

/-- The slice of `macross.Context` the Manager reads: `ctx.Cookie(name)`
(which can fail), `ctx.FormValue(name)` and `ctx.Scheme()`. -/
structure Ctx where
  cookie : String → Except String GoCookie
  formValue : String → String
  scheme : String

/-- Go `managerConfig`: the JSON-decoded Manager configuration
(`sessionIDLength` is an `int64` used only as a byte count, modelled as
`Nat`; the second fields are `Int` seconds). -/
structure ManagerConfig where
  cookieName : String := ""
  enableSetCookie : Bool := false
  gcLifetime : Int := 0
  maxLifetime : Int := 0
  secure : Bool := false
  cookieLifetime : Int := 0
  providerConfig : String := ""
  domain : String := ""
  sessionIDLength : Nat := 0
  deriving Repr, DecidableEq

/-- The `Provider` interface (part_002 spelling: `Init`/`Read`/`Exist`/
`Regenerate`/`Destory`/`Count`); `session.go` names the same methods
`SessionInit`/`SessionRead`/… .  A Go call `Read(sid)` returning
`(Store, error)` is modelled as a pair `Option S × Option String`
(a `nil` interface value is `none`).  `S` is the store type of the
concrete provider. -/
structure Prov (S : Type) where
  Init : Int → String → Option String := fun _ _ => none
  Read : String → Option S × Option String
  Exist : String → Bool
  Regenerate : String → String → Option S × Option String
  Destory : String → Option String := fun _ => none
  Count : Int := 0

/-- Go `Manager`: the configured provider plus its configuration. -/
structure Manager (S : Type) where
  provider : Prov S
  config : ManagerConfig

/-- The system CSPRNG as seen through `rand.Read` on a buffer of `n` bytes:
`some bs` is a successful read of the bytes `bs` (a short read has
`bs.length ≠ n`), `none` is a read error. -/
def RandSource : Type := Nat → Option (List (Fin 256))

/-- Go `Manager.getSid`: read the configured cookie; on lookup error or empty
value fall back to the form value; otherwise URL-unescape the cookie value. -/
def Manager.getSid {S : Type} (manager : Manager S) (ctx : Ctx) : Except String String :=
  match ctx.cookie manager.config.cookieName with
  | .error _ => .ok (ctx.formValue manager.config.cookieName)
  | .ok cookie =>
    if cookie.value = "" then .ok (ctx.formValue manager.config.cookieName)
    else queryUnescape cookie.value

/-- Go `Manager.sessionID`: read `sessionIDLength` random bytes and hex-encode
them; any failure to obtain exactly that many bytes is the CSPRNG error. -/
def Manager.sessionID {S : Type} (manager : Manager S) (rand : RandSource) :
    Except String String :=
  match rand manager.config.sessionIDLength with
  | none => .error "Could not successfully read from the system CSPRNG."
  | some b =>
    if b.length = manager.config.sessionIDLength then .ok (hexEncode b)
    else .error "Could not successfully read from the system CSPRNG."

/-- Go `Manager.isSecure`: secure only when configured and the request scheme
is a nonempty `https`. -/
def Manager.isSecure {S : Type} (manager : Manager S) (ctx : Ctx) : Bool :=
  if !manager.config.secure then false
  else if ctx.scheme ≠ "" then ctx.scheme = "https"
  else false

/-- Go `Manager.SessionStart` (src/session.go): result value plus the list of
cookies attached to the response via `ctx.SetCookie`. -/
def Manager.SessionStart {S : Type} (manager : Manager S) (rand : RandSource) (now : Int)
    (ctx : Ctx) : (Option S × Option String) × List GoCookie :=
  match manager.getSid ctx with
  | .error errs => ((none, some errs), [])
  | .ok sid =>
    if sid ≠ "" ∧ manager.provider.Exist sid = true then (manager.provider.Read sid, [])
    else
      match manager.sessionID rand with
      | .error errs => ((none, some errs), [])
      | .ok sid2 =>
        let res := manager.provider.Read sid2
        let cookie : GoCookie :=
          { name := manager.config.cookieName
            value := queryEscape sid2
            path := "/"
            httpOnly := true
            secure := manager.isSecure ctx
            domain := manager.config.domain
            expire :=
              if manager.config.cookieLifetime > 0 then
                some (now + manager.config.cookieLifetime * timeSecond)
              else none }
        (res, if manager.config.enableSetCookie then [cookie] else [])

/-- Go `Manager.Start` (the unnamed source file): identical to `SessionStart`
except that the expiry adds `time.Duration(CookieLifetime)` — raw
nanoseconds, with no `* time.Second`. -/
def Manager.Start {S : Type} (manager : Manager S) (rand : RandSource) (now : Int)
    (ctx : Ctx) : (Option S × Option String) × List GoCookie :=
  match manager.getSid ctx with
  | .error errs => ((none, some errs), [])
  | .ok sid =>
    if sid ≠ "" ∧ manager.provider.Exist sid = true then (manager.provider.Read sid, [])
    else
      match manager.sessionID rand with
      | .error errs => ((none, some errs), [])
      | .ok sid2 =>
        let res := manager.provider.Read sid2
        let cookie : GoCookie :=
          { name := manager.config.cookieName
            value := queryEscape sid2
            path := "/"
            httpOnly := true
            secure := manager.isSecure ctx
            domain := manager.config.domain
            expire :=
              if manager.config.cookieLifetime > 0 then
                some (now + manager.config.cookieLifetime)
              else none }
        (res, if manager.config.enableSetCookie then [cookie] else [])

/-- Go `Manager.RegenerateId` (the unnamed source file).  The Go function's named
return `err` is last assigned by `ctx.Cookie`, so the returned error is the
cookie-lookup error (the provider errors are discarded with `_`); the expiry
again adds raw nanoseconds.  On generator failure it returns the generation
error. -/
def Manager.RegenerateId {S : Type} (manager : Manager S) (rand : RandSource) (now : Int)
    (ctx : Ctx) : (Option S × Option String) × List GoCookie :=
  match manager.sessionID rand with
  | .error e => ((none, some e), [])
  | .ok sid =>
    let withLifetime : GoCookie → GoCookie := fun c =>
      if manager.config.cookieLifetime > 0 then
        { c with expire := some (now + manager.config.cookieLifetime) }
      else c
    let emit : List GoCookie → List GoCookie := fun cs =>
      if manager.config.enableSetCookie then cs else []
    let fresh : GoCookie :=
      { name := manager.config.cookieName
        value := queryEscape sid
        path := "/"
        httpOnly := true
        secure := manager.isSecure ctx
        domain := manager.config.domain }
    match ctx.cookie manager.config.cookieName with
    | .error e =>
      (((manager.provider.Read sid).1, some e), emit [withLifetime fresh])
    | .ok cookie =>
      if cookie.value = "" then
        (((manager.provider.Read sid).1, none), emit [withLifetime fresh])
      else
        let oldsid := match queryUnescape cookie.value with | .ok s => s | .error _ => ""
        let c : GoCookie :=
          { name := cookie.name
            value := queryEscape sid
            path := "/"
            httpOnly := true
            secure := cookie.secure
            domain := cookie.domain }
        (((manager.provider.Regenerate oldsid sid).1, none), emit [withLifetime c])

/-- Go `Manager.SessionRegenerateID` (src/session.go): same logic but its
signature returns only the session — there is no error result, so a
generator failure yields a bare `nil` session — and the expiry multiplies
by `time.Second`. -/
def Manager.SessionRegenerateID {S : Type} (manager : Manager S) (rand : RandSource) (now : Int)
    (ctx : Ctx) : Option S × List GoCookie :=
  match manager.sessionID rand with
  | .error _ => (none, [])
  | .ok sid =>
    let withLifetime : GoCookie → GoCookie := fun c =>
      if manager.config.cookieLifetime > 0 then
        { c with expire := some (now + manager.config.cookieLifetime * timeSecond) }
      else c
    let emit : List GoCookie → List GoCookie := fun cs =>
      if manager.config.enableSetCookie then cs else []
    let fresh : GoCookie :=
      { name := manager.config.cookieName
        value := queryEscape sid
        path := "/"
        httpOnly := true
        secure := manager.isSecure ctx
        domain := manager.config.domain }
    match ctx.cookie manager.config.cookieName with
    | .error _ =>
      ((manager.provider.Read sid).1, emit [withLifetime fresh])
    | .ok cookie =>
      if cookie.value = "" then
        ((manager.provider.Read sid).1, emit [withLifetime fresh])
      else
        let oldsid := match queryUnescape cookie.value with | .ok s => s | .error _ => ""
        let c : GoCookie :=
          { name := cookie.name
            value := queryEscape sid
            path := "/"
            httpOnly := true
            secure := cookie.secure
            domain := cookie.domain }
        ((manager.provider.Regenerate oldsid sid).1, emit [withLifetime c])

/-- Go `Register` (src/session.go): a `panic` is modelled as `Except.error`
carrying the panic message; success returns the updated registry
(`provides[name] = provide`).  A `nil` provider argument is `none`. -/
def Register {S : Type} (provides : List (String × Prov S)) (name : String)
    (provide : Option (Prov S)) : Except String (List (String × Prov S)) :=
  match provide with
  | none => .error "session: Register provide is nil"
  | some p =>
    match mapGet provides name with
    | some _ => .error ("session: Register called twice for provider " ++ name)
    | none => .ok (mapSet provides name p)

/-- The JSON object decoded into `managerConfig`: `none` in a field means the
key is absent from the JSON text, so `json.Unmarshal` leaves the Go zero
value (or the pre-set `EnableSetCookie = true`) in place. -/
structure ConfigJson where
  cookieName : Option String := none
  enableSetCookie : Option Bool := none
  gcLifetime : Option Int := none
  maxLifetime : Option Int := none
  secure : Option Bool := none
  cookieLifetime : Option Int := none
  providerConfig : Option String := none
  domain : Option String := none
  sessionIDLength : Option Nat := none

/-- Go `json.Unmarshal([]byte(config), cf)` where `cf` starts as the zero
`managerConfig` with `EnableSetCookie` pre-set to `true`. -/
def unmarshalManagerConfig (j : ConfigJson) : ManagerConfig :=
  { cookieName := j.cookieName.getD ""
    enableSetCookie := j.enableSetCookie.getD true
    gcLifetime := j.gcLifetime.getD 0
    maxLifetime := j.maxLifetime.getD 0
    secure := j.secure.getD false
    cookieLifetime := j.cookieLifetime.getD 0
    providerConfig := j.providerConfig.getD ""
    domain := j.domain.getD ""
    sessionIDLength := j.sessionIDLength.getD 0 }

/-- Go `if cf.MaxLifetime == 0 { cf.MaxLifetime = cf.GcLifetime }`. -/
def defaultMaxLifetime (cf : ManagerConfig) : ManagerConfig :=
  if cf.maxLifetime = 0 then { cf with maxLifetime := cf.gcLifetime } else cf

/-- Go `if cf.SessionIDLength == 0 { cf.SessionIDLength = 16 }`. -/
def defaultSessionIDLength (cf : ManagerConfig) : ManagerConfig :=
  if cf.sessionIDLength = 0 then { cf with sessionIDLength := 16 } else cf

/-- Go `NewManager` (src/session.go): look up the provider, decode the JSON
config (`config = none` models malformed JSON text), default `MaxLifetime`
to `GcLifetime` when zero, run the provider's `Init`, then default
`SessionIDLength` to 16 when zero. -/
def NewManager {S : Type} (provides : List (String × Prov S)) (provideName : String)
    (config : Option ConfigJson) : Except String (Manager S) :=
  match mapGet provides provideName with
  | none => .error ("session: unknown provide " ++ provideName)
  | some provider =>
    match config with
    | none => .error "invalid character in JSON config"
    | some j =>
      let cf := defaultMaxLifetime (unmarshalManagerConfig j)
      match provider.Init cf.maxLifetime cf.providerConfig with
      | some e => .error e
      | none => .ok { provider := provider, config := defaultSessionIDLength cf }

/-- Go `CookieSessionStore`: session id plus the decoded key/value data
(`map[interface{}]interface{}`, modelled generically; the per-store mutex
guards the map and is not part of the functional state). -/
structure CookieSessionStore (K V : Type) where
  sid : String
  values : List (K × V)

/-- Go `CookieSessionStore.Set`: `st.values[key] = value`, returns `nil`. -/
def CookieSessionStore.Set {K V : Type} [DecidableEq K] (st : CookieSessionStore K V)
    (key : K) (value : V) : CookieSessionStore K V × Option String :=
  ({ st with values := mapSet st.values key value }, none)

/-- Go `CookieSessionStore.Get`: the value bound to `key`, `nil` (`none`) when
absent. -/
def CookieSessionStore.Get {K V : Type} [DecidableEq K] (st : CookieSessionStore K V)
    (key : K) : Option V :=
  mapGet st.values key

/-- Go `CookieSessionStore.Delete`: `delete(st.values, key)`, returns `nil`. -/
def CookieSessionStore.Delete {K V : Type} [DecidableEq K] (st : CookieSessionStore K V)
    (key : K) : CookieSessionStore K V × Option String :=
  ({ st with values := mapDel st.values key }, none)

/-- Go `CookieSessionStore.Flush`: replace the data with a fresh empty map,
returns `nil`. -/
def CookieSessionStore.Flush {K V : Type} (st : CookieSessionStore K V) :
    CookieSessionStore K V × Option String :=
  ({ st with values := [] }, none)

/-- Go `CookieSessionStore.SessionID`. -/
def CookieSessionStore.sessionID {K V : Type} (st : CookieSessionStore K V) : String :=
  st.sid

/-- One mutating store operation, used to talk about arbitrary operation
sequences on a store. -/
inductive StoreOp (K V : Type) where
  | set (k : K) (v : V)
  | del (k : K)
  | flush

/-- Run a sequence of mutating operations left to right. -/
def applyStoreOps {K V : Type} [DecidableEq K] (st : CookieSessionStore K V) :
    List (StoreOp K V) → CookieSessionStore K V
  | [] => st
  | .set k v :: rest => applyStoreOps (st.Set k v).1 rest
  | .del k :: rest => applyStoreOps (st.Delete k).1 rest
  | .flush :: rest => applyStoreOps st.Flush.1 rest

/-- Does an operation bind the key `k`? -/
def StoreOp.setsKey {K V : Type} [DecidableEq K] (k : K) : StoreOp K V → Bool
  | .set k1 _ => k1 = k
  | _ => false

/-- Go `cookieConfig`: the cookie provider's JSON-decoded configuration. -/
structure CookieConfig where
  securityKey : String := ""
  blockKey : String := ""
  securityName : String := ""
  cookieName : String := ""
  secure : Bool := false
  maxAge : Int := 0
  deriving Repr, DecidableEq

/-- The JSON object decoded into `cookieConfig`; `none` means the key is
absent, leaving the Go zero value. -/
structure CookieConfigJson where
  securityKey : Option String := none
  blockKey : Option String := none
  securityName : Option String := none
  cookieName : Option String := none
  secure : Option Bool := none
  maxAge : Option Int := none

/-- Go `json.Unmarshal` into a zero `cookieConfig`. -/
def unmarshalCookieConfig (j : CookieConfigJson) : CookieConfig :=
  { securityKey := j.securityKey.getD ""
    blockKey := j.blockKey.getD ""
    securityName := j.securityName.getD ""
    cookieName := j.cookieName.getD ""
    secure := j.secure.getD false
    maxAge := j.maxAge.getD 0 }

/-- Modelled from the spec: `generateRandomKey` lives in the codec source
file that is not under src/; the spec says a fresh random key of the
requested strength is derived at startup.  The random source is the `seed`
parameter; the result is `strength` fresh bytes. -/
def generateRandomKey (seed : Nat → Fin 256) (strength : Nat) : List (Fin 256) :=
  (List.range strength).map seed

/-- Go's `string(bytes)` conversion. -/
def bytesToString (bs : List (Fin 256)) : String :=
  ⟨bs.map fun b => Char.ofNat b.val⟩

/-- Go `aes.NewCipher`: succeeds exactly on key sizes 16, 24 or 32 bytes; the
cipher itself stays abstract. -/
def aesNewCipher (key : String) : Except String Unit :=
  if key.length = 16 ∨ key.length = 24 ∨ key.length = 32 then .ok ()
  else .error "crypto/aes: invalid key size"

/-- Go `CookieProvider`: max lifetime and decoded config (the `cipher.Block` is
determined by `config.blockKey` and stays abstract). -/
structure CookieProvider where
  maxLifetime : Int := 0
  config : CookieConfig := {}
  deriving Repr, DecidableEq

/-- Go `CookieProvider.SessionInit`: decode the JSON config (`none` models
malformed JSON), derive a fresh random 16-byte `blockKey` and 20-byte
`securityName` when absent — `securityKey` has no such defaulting — then
build the AES block from `blockKey`. -/
def CookieProvider.SessionInit (seed : Nat → Fin 256) (maxLifetime : Int)
    (config : Option CookieConfigJson) : Except String CookieProvider :=
  match config with
  | none => .error "invalid character in JSON config"
  | some j =>
    let cfg := unmarshalCookieConfig j
    let cfg :=
      if cfg.blockKey = "" then
        { cfg with blockKey := bytesToString (generateRandomKey seed 16) }
      else cfg
    let cfg :=
      if cfg.securityName = "" then
        { cfg with securityName := bytesToString (generateRandomKey seed 20) }
      else cfg
    match aesNewCipher cfg.blockKey with
    | .error e => .error e
    | .ok _ => .ok { maxLifetime := maxLifetime, config := cfg }

/-- Go `CookieProvider.SessionRead`.  `decodeCookie` is in the codec source file
not under src/; modelled from the spec as a decode function whose result is
`none` on any decode failure (tamper, expiry) — the Go code discards the
error and only checks the map for `nil`.  A `nil` map is replaced by a
fresh empty one and the store is returned with a `nil` error. -/
def CookieProvider.SessionRead {K V : Type} (decode : String → Option (List (K × V)))
    (_pder : CookieProvider) (sid : String) : CookieSessionStore K V × Option String :=
  let maps := decode sid
  let maps := match maps with | none => ([] : List (K × V)) | some m => m
  ({ sid := sid, values := maps }, none)

/-- Go `CookieProvider.SessionExist`: always true. -/
def CookieProvider.SessionExist (_pder : CookieProvider) (_sid : String) : Bool :=
  true

/-- Go `CookieProvider.SessionRegenerate`: "Implement method, no used." — returns
a `nil` store and a `nil` error unconditionally. -/
def CookieProvider.SessionRegenerate {K V : Type} (_pder : CookieProvider)
    (_oldsid _sid : String) : Option (CookieSessionStore K V) × Option String :=
  (none, none)

/-- Go `CookieProvider.SessionDestroy`: no-op. -/
def CookieProvider.SessionDestroy (_pder : CookieProvider) (_sid : String) : Option String :=
  none

/-- Go `CookieProvider.SessionCount`: always 0. -/
def CookieProvider.SessionCount (_pder : CookieProvider) : Int :=
  0

/-- Modelled from the spec: the memory provider's source file is not under
src/.  Backing store: a process-local mapping from id to session data;
`Read` auto-vivifies an unseen id with empty data; `Regenerate(old, new)`
migrates the data of `old` to `new` and destroys `old`, behaving like
`Read(new)` when `old` is absent. -/
structure MemoryProvider (K V : Type) where
  sessions : List (String × List (K × V))

/-- The memory provider's per-session store handle. -/
structure MemoryStore (K V : Type) where
  sid : String
  values : List (K × V)

/-- Lookup in a memory store's data. -/
def MemoryStore.Get {K V : Type} [DecidableEq K] (st : MemoryStore K V) (k : K) : Option V :=
  mapGet st.values k

/-- Modelled from the spec: `Exists(id)`. -/
def MemoryProvider.Exist {K V : Type} (p : MemoryProvider K V) (sid : String) : Bool :=
  (mapGet p.sessions sid).isSome

/-- Modelled from the spec: `Read(id)` returns the existing data or creates
an empty session for an unseen id. -/
def MemoryProvider.Read {K V : Type} (p : MemoryProvider K V) (sid : String) :
    MemoryProvider K V × MemoryStore K V :=
  match mapGet p.sessions sid with
  | some data => (p, { sid := sid, values := data })
  | none => ({ sessions := mapSet p.sessions sid [] }, { sid := sid, values := [] })

/-- Modelled from the spec: `Regenerate(oldID, newID)`. -/
def MemoryProvider.Regenerate {K V : Type} (p : MemoryProvider K V) (oldsid sid : String) :
    MemoryProvider K V × MemoryStore K V :=
  match mapGet p.sessions oldsid with
  | some data =>
    ({ sessions := mapSet (mapDel p.sessions oldsid) sid data }, { sid := sid, values := data })
  | none => p.Read sid

/-- Modelled from the spec: setting a value under a session id through its
store and persisting it back (`Set` then `Release`). -/
def MemoryProvider.SetValue {K V : Type} [DecidableEq K] (p : MemoryProvider K V)
    (sid : String) (k : K) (v : V) : MemoryProvider K V :=
  let data := (mapGet p.sessions sid).getD []
  { sessions := mapSet p.sessions sid (mapSet data k v) }

theorem sessionID_hex {S : Type} (m : Manager S) (rand : RandSource) (s : String)
    (h : m.sessionID rand = .ok s) :
    ∃ b, rand m.config.sessionIDLength = some b ∧
      b.length = m.config.sessionIDLength ∧ s = hexEncode b := by
  unfold Manager.sessionID at h
  split at h
  · cases h
  · next b hr =>
    split at h
    · next hl =>
      refine ⟨b, hr, hl, ?_⟩
      injection h with h2
      exact h2.symm
    · cases h

theorem queryEscape_hexEncode (b : List (Fin 256)) :
    queryEscape (hexEncode b) = hexEncode b :=
  queryEscape_id_of_unescaped _ fun c hc => lowerHex_not_escaped c (hexEncode_chars b c hc)

theorem applyStoreOps_get_none {K V : Type} [DecidableEq K] (ops : List (StoreOp K V)) :
    ∀ (st : CookieSessionStore K V) (k : K), st.Get k = none →
      (∀ op ∈ ops, StoreOp.setsKey k op = false) →
      (applyStoreOps st ops).Get k = none := by
  induction ops with
  | nil => intro st k h0 _; exact h0
  | cons op rest ih =>
    intro st k h0 h
    have hop := h op (List.mem_cons_self _ _)
    have hrest := fun o ho => h o (List.mem_cons_of_mem _ ho)
    cases op with
    | set k1 v =>
      have hk : k1 ≠ k := by
        intro he
        rw [he] at hop
        simp [StoreOp.setsKey] at hop
      refine ih _ _ ?_ hrest
      show mapGet (mapSet st.values k1 v) k = none
      rw [mapGet_mapSet_other st.values k k1 v hk]
      exact h0
    | del k1 =>
      refine ih _ _ ?_ hrest
      show mapGet (mapDel st.values k1) k = none
      by_cases hk : k1 = k
      · rw [hk]
        exact mapGet_mapDel_same _ _
      · rw [mapGet_mapDel_other st.values k k1 hk]
        exact h0
    | flush =>
      exact ih _ _ rfl hrest

/-- C10: the cookie session store behaves as a finite map: `Set`, `Delete`
and `Flush` always return a `nil` error; after `Set(k, v)`, `Get(k)`
returns `v`; after `Delete(k)` or `Flush()`, `Get(k)` returns `nil`; other
keys are untouched, and `Get` of a key never set (starting from the empty
store, along any operation sequence that never sets it) returns `nil`. -/
theorem C10_cookie_store_finite_map {K V : Type} [DecidableEq K]
    (st : CookieSessionStore K V) (k k1 : K) (v : V) (ops : List (StoreOp K V)) :
    ((st.Set k v).2 = none ∧ (st.Delete k).2 = none ∧ st.Flush.2 = none) ∧
    (st.Set k v).1.Get k = some v ∧
    (st.Delete k).1.Get k = none ∧
    st.Flush.1.Get k = none ∧
    (k1 ≠ k → ((st.Set k1 v).1.Get k = st.Get k ∧ (st.Delete k1).1.Get k = st.Get k)) ∧
    ((∀ op ∈ ops, StoreOp.setsKey k op = false) →
      (applyStoreOps { sid := st.sid, values := [] } ops).Get k = none) := by
  refine ⟨⟨rfl, rfl, rfl⟩, ?_, ?_, rfl, ?_, ?_⟩
  · exact mapGet_mapSet_same st.values k v
  · exact mapGet_mapDel_same st.values k
  · intro hk
    exact ⟨mapGet_mapSet_other st.values k k1 v hk, mapGet_mapDel_other st.values k k1 hk⟩
  · intro h
    exact applyStoreOps_get_none ops _ k rfl h

/-- C10 witness: concrete run on a small store. -/
theorem C10_witness :
    (({ sid := "s", values := [("a", 1)] } : CookieSessionStore String Nat).Set "b" 2).1.Get "b"
        = some 2 ∧
    (applyStoreOps { sid := "s", values := [] }
        [StoreOp.set "a" 1, StoreOp.del "a", StoreOp.flush]).Get "b" = none := by
  have h := C10_cookie_store_finite_map
    ({ sid := "s", values := [("a", 1)] } : CookieSessionStore String Nat) "b" "a" 2
    [StoreOp.set "a" 1, StoreOp.del "a", StoreOp.flush]
  exact ⟨h.2.1, h.2.2.2.2.2 (by decide)⟩

/-- C2: for every sid, the cookie provider's `SessionRead` returns a `nil`
error and a store whose `SessionID()` is `sid`; when decoding the inbound
payload fails the store's data is an empty map, and when it succeeds the
store holds exactly the decoded data. -/
theorem C2_cookie_sessionRead {K V : Type} (decode : String → Option (List (K × V)))
    (pder : CookieProvider) (sid : String) :
    (CookieProvider.SessionRead decode pder sid).2 = none ∧
    (CookieProvider.SessionRead decode pder sid).1.sessionID = sid ∧
    (decode sid = none → (CookieProvider.SessionRead decode pder sid).1.values = []) ∧
    (∀ m, decode sid = some m → (CookieProvider.SessionRead decode pder sid).1.values = m) := by
  refine ⟨rfl, rfl, fun h => ?_, fun m h => ?_⟩
  · simp [CookieProvider.SessionRead, h]
  · simp [CookieProvider.SessionRead, h]

/-- C2 witness: a decoder that always fails still yields a store for the
requested sid with empty data and no error. -/
theorem C2_witness :
    (CookieProvider.SessionRead (K := String) (V := String) (fun _ => none) {} "tampered").2
        = none ∧
    (CookieProvider.SessionRead (K := String) (V := String) (fun _ => none) {}
        "tampered").1.sessionID = "tampered" ∧
    (CookieProvider.SessionRead (K := String) (V := String) (fun _ => none) {}
        "tampered").1.values = [] := by
  have h := C2_cookie_sessionRead (K := String) (V := String) (fun _ => none) {} "tampered"
  exact ⟨h.1, h.2.1, h.2.2.1 rfl⟩

/-- C9: `Register(name, provider)` panics when the provider is nil or the
name is taken, and otherwise adds exactly the binding `name → provider`,
leaving every other name's lookup unchanged. -/
theorem C9_register_spec {S : Type} (provides : List (String × Prov S)) (name : String)
    (p : Prov S) :
    Register provides name none = .error "session: Register provide is nil" ∧
    (mapGet provides name ≠ none →
      Register provides name (some p)
        = .error ("session: Register called twice for provider " ++ name)) ∧
    (mapGet provides name = none →
      ∃ r, Register provides name (some p) = .ok r ∧ mapGet r name = some p ∧
        ∀ other, other ≠ name → mapGet r other = mapGet provides other) := by
  refine ⟨rfl, fun hdup => ?_, fun hfree => ?_⟩
  · unfold Register
    cases hg : mapGet provides name with
    | none => exact absurd hg hdup
    | some q => rfl
  · refine ⟨mapSet provides name p, ?_, mapGet_mapSet_same provides name p, ?_⟩
    · unfold Register
      rw [hfree]
    · intro other hother
      exact mapGet_mapSet_other provides other name p (Ne.symm hother)

/-- A small concrete provider used to instantiate theorems. -/
def memProvFixture : Prov Nat :=
  { Read := fun _ => (some 0, none), Exist := fun _ => true,
    Regenerate := fun _ _ => (none, none) }

/-- A second small concrete provider used to instantiate theorems. -/
def cookieProvFixture : Prov Nat :=
  { Read := fun _ => (some 1, none), Exist := fun _ => true,
    Regenerate := fun _ _ => (none, none) }

/-- C9 witness: registering a fresh name succeeds and preserves the other
entry. -/
theorem C9_witness :
    ∃ r, Register [("memory", memProvFixture)] "cookie" (some cookieProvFixture) = .ok r ∧
      mapGet r "cookie" = some cookieProvFixture ∧
      ∀ other, other ≠ "cookie" →
        mapGet r other = mapGet [("memory", memProvFixture)] other :=
  (C9_register_spec [("memory", memProvFixture)] "cookie" cookieProvFixture).2.2 rfl

/-- C3 counterexample: the cookie provider's `SessionRegenerate` returns a
nil store and nil error — it neither returns a Store bound to the new id
nor behaves like `Read(newID)`, which does produce a store bound to the
new id. -/
theorem C3_counterexample :
    CookieProvider.SessionRegenerate (K := String) (V := String) {} "old" "new" = (none, none) ∧
    (CookieProvider.SessionRead (K := String) (V := String) (fun _ => none) {}
        "new").1.sessionID = "new" :=
  ⟨rfl, rfl⟩

/-- C3 amended: for the spec-modelled memory provider, `Regenerate(old, new)`
(with distinct ids) returns a store bound to `new`, destroys `old`, makes
`new` exist, equals `Read(new)` when `old` has no data, and any value set
under `old` beforehand is retrievable under `new`; the cookie provider's
`SessionRegenerate` instead is a no-op returning a nil store and nil
error. -/
theorem C3_regenerate_amended {K V : Type} [DecidableEq K] (p : MemoryProvider K V)
    (oldsid sid : String) (hne : oldsid ≠ sid) (k : K) (v : V) :
    (p.Regenerate oldsid sid).2.sid = sid ∧
    (p.Regenerate oldsid sid).1.Exist oldsid = false ∧
    (p.Regenerate oldsid sid).1.Exist sid = true ∧
    (mapGet p.sessions oldsid = none → p.Regenerate oldsid sid = p.Read sid) ∧
    ((p.SetValue oldsid k v).Regenerate oldsid sid).2.Get k = some v ∧
    (∀ pc : CookieProvider, ∀ o s : String,
      CookieProvider.SessionRegenerate (K := K) (V := V) pc o s = (none, none)) := by
  have hsym : sid ≠ oldsid := Ne.symm hne
  refine ⟨?_, ?_, ?_, ?_, ?_, fun pc o s => rfl⟩
  · cases hg : mapGet p.sessions oldsid with
    | some data => simp [MemoryProvider.Regenerate, hg]
    | none =>
      cases hg2 : mapGet p.sessions sid with
      | some data => simp [MemoryProvider.Regenerate, MemoryProvider.Read, hg, hg2]
      | none => simp [MemoryProvider.Regenerate, MemoryProvider.Read, hg, hg2]
  · cases hg : mapGet p.sessions oldsid with
    | some data =>
      simp only [MemoryProvider.Regenerate, hg, MemoryProvider.Exist]
      rw [mapGet_mapSet_other _ oldsid sid data hsym, mapGet_mapDel_same]
      rfl
    | none =>
      cases hg2 : mapGet p.sessions sid with
      | some data =>
        simp only [MemoryProvider.Regenerate, hg, MemoryProvider.Read, hg2,
          MemoryProvider.Exist]
        rfl
      | none =>
        simp only [MemoryProvider.Regenerate, hg, MemoryProvider.Read, hg2,
          MemoryProvider.Exist]
        rw [mapGet_mapSet_other _ oldsid sid [] hsym, hg]
        rfl
  · cases hg : mapGet p.sessions oldsid with
    | some data =>
      simp only [MemoryProvider.Regenerate, hg, MemoryProvider.Exist]
      rw [mapGet_mapSet_same]
      rfl
    | none =>
      cases hg2 : mapGet p.sessions sid with
      | some data =>
        simp only [MemoryProvider.Regenerate, hg, MemoryProvider.Read, hg2,
          MemoryProvider.Exist]
        rfl
      | none =>
        simp only [MemoryProvider.Regenerate, hg, MemoryProvider.Read, hg2,
          MemoryProvider.Exist]
        rw [mapGet_mapSet_same]
        rfl
  · intro hg
    simp [MemoryProvider.Regenerate, hg]
  · have hset : mapGet (p.SetValue oldsid k v).sessions oldsid
        = some (mapSet ((mapGet p.sessions oldsid).getD []) k v) := by
      simp only [MemoryProvider.SetValue]
      exact mapGet_mapSet_same _ _ _
    simp only [MemoryProvider.Regenerate, hset, MemoryStore.Get]
    exact mapGet_mapSet_same _ _ _

/-- C3 witness: a concrete regeneration on the memory provider. -/
theorem C3_witness :
    (({ sessions := [("old", [("k", 5)])] } : MemoryProvider String Nat).Regenerate
        "old" "new").1.Exist "old" = false ∧
    (({ sessions := [("old", [("k", 5)])] } : MemoryProvider String Nat).Regenerate
        "old" "new").1.Exist "new" = true ∧
    ((({ sessions := [("old", [("k", 5)])] } : MemoryProvider String Nat).SetValue
        "old" "k2" 7).Regenerate "old" "new").2.Get "k2" = some 7 := by
  have h := C3_regenerate_amended
    ({ sessions := [("old", [("k", 5)])] } : MemoryProvider String Nat)
    "old" "new" (by decide) "k2" 7
  exact ⟨h.2.1, h.2.2.1, h.2.2.2.2.1⟩

/-- C5 counterexample: `SessionInit` on a config with no keys at all succeeds
with `securityKey` left empty — only `blockKey` and `securityName` are
defaulted to fresh random values, so "all three are nonempty" fails. -/
theorem C5_counterexample :
    CookieProvider.SessionInit (fun _ => (97 : Fin 256)) 0 (some {}) =
      .ok { maxLifetime := 0,
            config := { securityKey := "", blockKey := "aaaaaaaaaaaaaaaa",
                        securityName := "aaaaaaaaaaaaaaaaaaaa", cookieName := "",
                        secure := false, maxAge := 0 } } := by
  rfl

theorem bytesToString_genKey_length (seed : Nat → Fin 256) (n : Nat) :
    (bytesToString (generateRandomKey seed n)).length = n := by
  simp [bytesToString, generateRandomKey, String.length]

/-- C5 amended: after a successful `SessionInit`, `blockKey` and
`securityName` are nonempty (defaulted to fresh random 16- and 20-byte
keys when absent), while `securityKey` is taken verbatim from the config
and is not defaulted — it stays empty when absent. -/
theorem C5_sessionInit_amended (seed : Nat → Fin 256) (maxLifetime : Int)
    (j : CookieConfigJson) (st : CookieProvider)
    (h : CookieProvider.SessionInit seed maxLifetime (some j) = .ok st) :
    st.config.blockKey ≠ "" ∧ st.config.securityName ≠ "" ∧
    st.config.securityKey = j.securityKey.getD "" ∧
    st.maxLifetime = maxLifetime := by
  have hb16 : bytesToString (generateRandomKey seed 16) ≠ "" := by
    intro he
    have := bytesToString_genKey_length seed 16
    rw [he] at this
    simp [String.length] at this
  have hb20 : bytesToString (generateRandomKey seed 20) ≠ "" := by
    intro he
    have := bytesToString_genKey_length seed 20
    rw [he] at this
    simp [String.length] at this
  simp only [CookieProvider.SessionInit] at h
  split at h
  · cases h
  · injection h with h2
    subst h2
    constructor
    · split <;> split <;> simp_all
    constructor
    · split <;> split <;> simp_all
    constructor
    · split <;> split <;> simp [unmarshalCookieConfig]
    · rfl

/-- C5 witness: a config carrying only `securityKey` keeps it and gets fresh
nonempty `blockKey` and `securityName`. -/
theorem C5_witness :
    ({ maxLifetime := 3600,
       config := { securityKey := "hmackey", blockKey := "aaaaaaaaaaaaaaaa",
                   securityName := "aaaaaaaaaaaaaaaaaaaa" } } :
        CookieProvider).config.blockKey ≠ "" ∧
    ({ maxLifetime := 3600,
       config := { securityKey := "hmackey", blockKey := "aaaaaaaaaaaaaaaa",
                   securityName := "aaaaaaaaaaaaaaaaaaaa" } } :
        CookieProvider).config.securityKey = "hmackey" := by
  have h := C5_sessionInit_amended (fun _ => (97 : Fin 256)) 3600
    { securityKey := some "hmackey" }
    { maxLifetime := 3600,
      config := { securityKey := "hmackey", blockKey := "aaaaaaaaaaaaaaaa",
                  securityName := "aaaaaaaaaaaaaaaaaaaa" } }
    (by rfl)
  exact ⟨h.1, h.2.2.1⟩

/-- C7: the session-id generator succeeds exactly when the random source
supplies the configured number of bytes, and then returns their lowercase
hex encoding — `2 * length` characters, all in `[0-9a-f]`. -/
theorem C7_sessionID_spec {S : Type} (m : Manager S) (rand : RandSource) :
    (∀ b, rand m.config.sessionIDLength = some b → b.length = m.config.sessionIDLength →
      m.sessionID rand = .ok (hexEncode b) ∧
      (hexEncode b).length = 2 * m.config.sessionIDLength ∧
      ∀ c ∈ (hexEncode b).data, isLowerHexChar c = true) ∧
    (rand m.config.sessionIDLength = none →
      m.sessionID rand = .error "Could not successfully read from the system CSPRNG.") ∧
    (∀ b, rand m.config.sessionIDLength = some b → b.length ≠ m.config.sessionIDLength →
      m.sessionID rand = .error "Could not successfully read from the system CSPRNG.") := by
  refine ⟨fun b hb hl => ⟨?_, ?_, hexEncode_chars b⟩, fun h => ?_, fun b hb hl => ?_⟩
  · unfold Manager.sessionID
    rw [hb]
    exact if_pos hl
  · rw [hexEncode_length, hl]
  · unfold Manager.sessionID
    rw [h]
  · unfold Manager.sessionID
    rw [hb]
    exact if_neg hl

/-- A Manager fixture with the default id length. -/
def mgr16 : Manager Nat :=
  { provider := memProvFixture, config := { sessionIDLength := 16 } }

/-- A random source supplying the bytes 0, 1, 2, … as requested. -/
def rand16 : RandSource := fun n => some ((List.range n).map fun i => (i : Fin 256))

/-- C7 witness: with 16 bytes the generated id has 32 lowercase hex
characters. -/
theorem C7_witness :
    mgr16.sessionID rand16 = .ok (hexEncode ((List.range 16).map fun i => (i : Fin 256))) ∧
    (hexEncode ((List.range 16).map fun i => (i : Fin 256))).length = 2 * 16 ∧
    ∀ c ∈ (hexEncode ((List.range 16).map fun i => (i : Fin 256))).data,
      isLowerHexChar c = true := by
  have h := (C7_sessionID_spec mgr16 rand16).1
    ((List.range 16).map fun i => (i : Fin 256)) rfl (by decide)
  exact ⟨h.1, h.2.1, h.2.2⟩

/-- C1: on every request whose extracted id is nonempty and exists at the
provider, `Start`/`SessionStart` return exactly the provider's `Read(id)`
and attach no cookie; otherwise, once a fresh id is minted, they return
the provider's `Read(newID)` and attach an outbound cookie carrying the
new id exactly when `EnableSetCookie` is true. -/
theorem C1_start_semantics {S : Type} (m : Manager S) (rand : RandSource) (now : Int)
    (ctx : Ctx) (sid : String) (hsid : m.getSid ctx = .ok sid) :
    (sid ≠ "" ∧ m.provider.Exist sid = true →
      m.Start rand now ctx = (m.provider.Read sid, []) ∧
      m.SessionStart rand now ctx = (m.provider.Read sid, [])) ∧
    (∀ newSid, ¬(sid ≠ "" ∧ m.provider.Exist sid = true) →
      m.sessionID rand = .ok newSid →
      queryEscape newSid = newSid ∧
      m.Start rand now ctx = (m.provider.Read newSid,
        if m.config.enableSetCookie then
          [{ name := m.config.cookieName, value := newSid, path := "/", httpOnly := true,
             secure := m.isSecure ctx, domain := m.config.domain,
             expire := if m.config.cookieLifetime > 0 then
               some (now + m.config.cookieLifetime) else none }]
        else []) ∧
      m.SessionStart rand now ctx = (m.provider.Read newSid,
        if m.config.enableSetCookie then
          [{ name := m.config.cookieName, value := newSid, path := "/", httpOnly := true,
             secure := m.isSecure ctx, domain := m.config.domain,
             expire := if m.config.cookieLifetime > 0 then
               some (now + m.config.cookieLifetime * timeSecond) else none }]
        else [])) := by
  constructor
  · intro h
    constructor
    · simp only [Manager.Start, hsid]
      rw [if_pos h]
    · simp only [Manager.SessionStart, hsid]
      rw [if_pos h]
  · intro newSid hno hgen
    obtain ⟨b, hb, hl, hs⟩ := sessionID_hex m rand newSid hgen
    have hesc : queryEscape newSid = newSid := by
      rw [hs]
      exact queryEscape_hexEncode b
    refine ⟨hesc, ?_, ?_⟩
    · simp only [Manager.Start, hsid]
      rw [if_neg hno]
      simp only [hgen, hesc]
    · simp only [Manager.SessionStart, hsid]
      rw [if_neg hno]
      simp only [hgen, hesc]

/-- A provider fixture for Manager runs. -/
def c1prov : Prov Nat :=
  { Read := fun s => (some s.length, none), Exist := fun s => s == "abc",
    Regenerate := fun _ _ => (none, none) }

/-- Manager fixture: session-scoped cookies (lifetime 0), one-byte ids. -/
def c1mgr : Manager Nat :=
  { provider := c1prov,
    config := { cookieName := "sid", enableSetCookie := true, cookieLifetime := 0,
                sessionIDLength := 1 } }

/-- A request carrying no cookie and no form value. -/
def ctxEmpty : Ctx :=
  { cookie := fun _ => .error "http: named cookie not present",
    formValue := fun _ => "", scheme := "http" }

/-- A random source delivering zero bytes. -/
def randZero : RandSource := fun n => some (List.replicate n 0)

/-- A random source that always fails. -/
def randFailSrc : RandSource := fun _ => none

/-- C1 witness: minting path on a concrete request without a session. -/
theorem C1_witness :
    c1mgr.Start randZero 0 ctxEmpty = (c1mgr.provider.Read "00",
      [{ name := "sid", value := "00", path := "/", httpOnly := true, secure := false,
         domain := "", expire := none }]) := by
  have h := (C1_start_semantics c1mgr randZero 0 ctxEmpty "" rfl).2 "00" (by decide) rfl
  exact h.2.1

/-- C6 counterexample: with a failing random source, `SessionRegenerateID`
(src/session.go), whose signature has no error result, returns a bare nil
session and attaches nothing — the generation error is not returned to the
caller — while `RegenerateId` (the unnamed source file) does return it. -/
theorem C6_counterexample :
    c1mgr.SessionRegenerateID randFailSrc 0 ctxEmpty = (none, []) ∧
    c1mgr.RegenerateId randFailSrc 0 ctxEmpty
      = ((none, some "Could not successfully read from the system CSPRNG."), []) :=
  ⟨rfl, rfl⟩

/-- C6 amended: a generation failure is surfaced as a recoverable error by
`Start`, `SessionStart` (on their minting path) and `RegenerateId`, with no
retry; `SessionRegenerateID`, whose signature has no error result, instead
swallows it, returning a nil session and attaching no cookie. -/
theorem C6_generation_error_amended {S : Type} (m : Manager S) (rand : RandSource)
    (now : Int) (ctx : Ctx) (e sid : String) (hgen : m.sessionID rand = .error e) :
    m.RegenerateId rand now ctx = ((none, some e), []) ∧
    m.SessionRegenerateID rand now ctx = (none, []) ∧
    (m.getSid ctx = .ok sid → ¬(sid ≠ "" ∧ m.provider.Exist sid = true) →
      m.Start rand now ctx = ((none, some e), []) ∧
      m.SessionStart rand now ctx = ((none, some e), [])) := by
  refine ⟨?_, ?_, fun hsid hno => ⟨?_, ?_⟩⟩
  · simp only [Manager.RegenerateId, hgen]
  · simp only [Manager.SessionRegenerateID, hgen]
  · simp only [Manager.Start, hsid]
    rw [if_neg hno]
    simp only [hgen]
  · simp only [Manager.SessionStart, hsid]
    rw [if_neg hno]
    simp only [hgen]

/-- C6 witness: the concrete failing source on the fixture manager. -/
theorem C6_witness :
    c1mgr.RegenerateId randFailSrc 5 ctxEmpty
      = ((none, some "Could not successfully read from the system CSPRNG."), []) ∧
    c1mgr.SessionRegenerateID randFailSrc 5 ctxEmpty = (none, []) ∧
    c1mgr.Start randFailSrc 5 ctxEmpty
      = ((none, some "Could not successfully read from the system CSPRNG."), []) := by
  have h := C6_generation_error_amended c1mgr randFailSrc 5 ctxEmpty
    "Could not successfully read from the system CSPRNG." "" rfl
  exact ⟨h.1, h.2.1, (h.2.2 rfl (by decide)).1⟩

theorem defaultMaxLifetime_enableSetCookie (cf : ManagerConfig) :
    (defaultMaxLifetime cf).enableSetCookie = cf.enableSetCookie := by
  unfold defaultMaxLifetime
  split <;> rfl

theorem defaultMaxLifetime_sessionIDLength (cf : ManagerConfig) :
    (defaultMaxLifetime cf).sessionIDLength = cf.sessionIDLength := by
  unfold defaultMaxLifetime
  split <;> rfl

theorem defaultMaxLifetime_maxLifetime_of_zero (cf : ManagerConfig)
    (h : cf.maxLifetime = 0) : (defaultMaxLifetime cf).maxLifetime = cf.gcLifetime := by
  unfold defaultMaxLifetime
  rw [if_pos h]

theorem defaultSessionIDLength_enableSetCookie (cf : ManagerConfig) :
    (defaultSessionIDLength cf).enableSetCookie = cf.enableSetCookie := by
  unfold defaultSessionIDLength
  split <;> rfl

theorem defaultSessionIDLength_maxLifetime (cf : ManagerConfig) :
    (defaultSessionIDLength cf).maxLifetime = cf.maxLifetime := by
  unfold defaultSessionIDLength
  split <;> rfl

theorem defaultSessionIDLength_providerConfig (cf : ManagerConfig) :
    (defaultSessionIDLength cf).providerConfig = cf.providerConfig := by
  unfold defaultSessionIDLength
  split <;> rfl

theorem defaultSessionIDLength_of_zero (cf : ManagerConfig)
    (h : cf.sessionIDLength = 0) : (defaultSessionIDLength cf).sessionIDLength = 16 := by
  unfold defaultSessionIDLength
  rw [if_pos h]

/-- C8: `NewManager` defaults `enableSetCookie` to true, `maxLifetime` to
`gcLifetime` when unset (and that defaulted value is what the provider's
`Init` succeeded on), and `sessionIDLength` to 16; an unregistered
provider name or malformed JSON yields an error. -/
theorem C8_newManager_defaults {S : Type} (provides : List (String × Prov S))
    (name : String) (j : ConfigJson) :
    (mapGet provides name = none →
      ∀ config, ∃ e, NewManager provides name config = .error e) ∧
    (∀ prov, mapGet provides name = some prov →
      NewManager provides name none = .error "invalid character in JSON config") ∧
    (∀ prov m, mapGet provides name = some prov →
      NewManager provides name (some j) = .ok m →
      m.config.enableSetCookie = j.enableSetCookie.getD true ∧
      (j.maxLifetime.getD 0 = 0 → m.config.maxLifetime = j.gcLifetime.getD 0) ∧
      prov.Init m.config.maxLifetime m.config.providerConfig = none ∧
      (j.sessionIDLength.getD 0 = 0 → m.config.sessionIDLength = 16)) := by
  refine ⟨fun h config => ?_, fun prov h => ?_, fun prov m h hok => ?_⟩
  · unfold NewManager
    rw [h]
    exact ⟨_, rfl⟩
  · unfold NewManager
    rw [h]
  · simp only [NewManager, h] at hok
    split at hok
    · cases hok
    · next hinit =>
      injection hok with hok2
      subst hok2
      refine ⟨?_, ?_, ?_, ?_⟩
      · rw [defaultSessionIDLength_enableSetCookie, defaultMaxLifetime_enableSetCookie]
        rfl
      · intro hml
        have hml2 : (unmarshalManagerConfig j).maxLifetime = 0 := hml
        rw [defaultSessionIDLength_maxLifetime, defaultMaxLifetime_maxLifetime_of_zero _ hml2]
        rfl
      · rw [defaultSessionIDLength_maxLifetime, defaultSessionIDLength_providerConfig]
        exact hinit
      · intro hsl
        have hsl2 : (defaultMaxLifetime (unmarshalManagerConfig j)).sessionIDLength = 0 := by
          rw [defaultMaxLifetime_sessionIDLength]
          exact hsl
        exact defaultSessionIDLength_of_zero _ hsl2

/-- C8 witness: a registered provider with `gcLifetime` only. -/
theorem C8_witness :
    ∀ m, NewManager [("memory", memProvFixture)] "memory"
        (some { cookieName := some "sid", gcLifetime := some 3600 }) = .ok m →
      m.config.enableSetCookie = true ∧ m.config.maxLifetime = 3600 ∧
      m.config.sessionIDLength = 16 := by
  intro m hok
  have h := (C8_newManager_defaults [("memory", memProvFixture)] "memory"
    { cookieName := some "sid", gcLifetime := some 3600 }).2.2 memProvFixture m rfl hok
  exact ⟨h.1, h.2.1 rfl, h.2.2.2 rfl⟩

/-- Manager fixture with a one-second cookie lifetime. -/
def c4mgr : Manager Nat :=
  { provider := c1prov,
    config := { cookieName := "sid", enableSetCookie := true, cookieLifetime := 1,
                sessionIDLength := 1 } }

/-- The same fixture with a zero (session-scoped) cookie lifetime. -/
def c4mgr0 : Manager Nat :=
  { provider := c1prov,
    config := { cookieName := "sid", enableSetCookie := true, cookieLifetime := 0,
                sessionIDLength := 1 } }

/-- C4: evaluation at `cookieLifetime = 1`, `now = 0`.  `SessionStart`
(src/session.go) sets the expiry `1 * timeSecond` nanoseconds ahead as the
claim states, but `Start` and `RegenerateId` (the unnamed source file)
omit the `* time.Second` and set it only 1 nanosecond ahead; with
`cookieLifetime = 0` no expiry is set. -/
theorem C4_cookieLifetime_eval :
    (c4mgr.SessionStart randZero 0 ctxEmpty).2.map GoCookie.expire = [some (1 * timeSecond)] ∧
    (c4mgr.Start randZero 0 ctxEmpty).2.map GoCookie.expire = [some 1] ∧
    (c4mgr.RegenerateId randZero 0 ctxEmpty).2.map GoCookie.expire = [some 1] ∧
    (c4mgr0.SessionStart randZero 0 ctxEmpty).2.map GoCookie.expire = [none] ∧
    (c4mgr0.Start randZero 0 ctxEmpty).2.map GoCookie.expire = [none] ∧
    (c4mgr0.RegenerateId randZero 0 ctxEmpty).2.map GoCookie.expire = [none] ∧
    (1 : Int) ≠ 1 * timeSecond := by
  exact ⟨rfl, rfl, rfl, rfl, rfl, rfl, by decide⟩

end SessionLib
